import Mathlib

/-!
# ZAgent core: shallow embedding and verification

A shallow embedding of the ZAgent conversation core (`zagent/core/state.py`,
`zagent/core/client.py`, `zagent/cli.py`, `zagent/tools/*`) together with
theorems settling the behavioural claims about it.

Conventions of the embedding:
* Python strings are Lean `String`s (for the state machine and tools) or
  `List Nat` of Unicode code points (for the byte-level signature engine,
  where UTF-8 encoding matters).
* Python `None`-or-value fields are `Option`; Python truthiness of
  `str | None` (`if not x:`) is `pyTruthy`.
* Impure dependencies (the uuid factory, the wall clock, the HTTP transport
  and the JSON decoder of the `requests` layer) are injected explicitly, in
  the same places the source injects or calls them.
* Raised exceptions are `Except String`; a propagating exception is an
  `.error` value.
-/

namespace ZAgent

/-- Python truthiness of a `str | None` value: `None` and `""` are falsy. -/
def pyTruthy : Option String → Bool
  | none => false
  | some s => !(s == "")

/-! ## `zagent/core/state.py` — `ChatState`

The dataclass `ChatState`.  The impure `_uuid_factory : Callable[[], str]`
is modelled as an injected infinite supply `uuidSeq : Nat → String` read at
position `uuidPos`; each call of the factory returns the next element of the
supply.  The feature dictionary is modelled by the structure `Features`
holding exactly the keys the source reads (missing keys are `none`, and
`_feature_value` supplies the default, as `dict.get` does). -/

/-- The feature dictionary: the keys `ChatState` reads, each possibly absent. -/
structure Features where
  preview_mode : Option Bool := some true
  enable_thinking : Option Bool := some false
  image_generation : Option Bool := some false
  web_search : Option Bool := some false
  auto_web_search : Option Bool := some false
  flags : Option (List String) := some []
deriving Repr, DecidableEq

/-- `ChatState` (dataclass in `zagent/core/state.py`). -/
structure ChatState where
  model : String := "GLM-4-6-API-V1"
  chat_id : Option String := none
  user_name : String := "User"
  user_language : String := "en-US"
  user_timezone : String := "UTC"
  system_prompt : Option String := none
  features : Features := {}
  runtime_show_thinking : Bool := true
  runtime_thinking_color : String := "gray"
  current_user_message_id : Option String := none
  current_user_message_parent_id : Option String := none
  current_assistant_message_id : Option String := none
  current_assistant_content : String := ""
  /-- models `_uuid_factory`: the stream of identifiers it will return -/
  uuidSeq : Nat → String := fun _ => ""
  /-- how many identifiers have been drawn from the factory so far -/
  uuidPos : Nat := 0

namespace ChatState

/-- `ChatState.begin_turn`: draw fresh user/assistant message identifiers
from the factory, record them as current, reset the accumulated content.
Returns the `(user_message_id, assistant_message_id)` pair and the new
state.  (The `prompt` argument is accepted and ignored, as in the source.) -/
def begin_turn (st : ChatState) (_prompt : String) : (String × String) × ChatState :=
  let user_message_id := st.uuidSeq st.uuidPos
  let assistant_message_id := st.uuidSeq (st.uuidPos + 1)
  ((user_message_id, assistant_message_id),
   { st with
      current_user_message_id := some user_message_id
      current_assistant_message_id := some assistant_message_id
      current_assistant_content := ""
      uuidPos := st.uuidPos + 2 })

/-- `ChatState.apply_assistant_delta`: append to the accumulated content. -/
def apply_assistant_delta (st : ChatState) (delta : String) : ChatState :=
  { st with current_assistant_content := st.current_assistant_content ++ delta }

/-- `ChatState.finish_turn`: the parent link for the next turn becomes the
current assistant message id. -/
def finish_turn (st : ChatState) : ChatState :=
  { st with current_user_message_parent_id := st.current_assistant_message_id }

end ChatState

/-- The wall-clock strings `build_completion_payload` reads via
`datetime.now().astimezone().strftime(...)`; external input, injected. -/
structure WallClock where
  datetimeStr : String := "1970-01-01 00:00:00"
  dateStr : String := "1970-01-01"
  timeStr : String := "00:00:00"
  weekdayStr : String := "Thursday"
deriving Repr, DecidableEq

/-- The feature snapshot embedded in a completion payload (all defaults
resolved, as the source's `bool(...)`/`list(...)` coercions produce). -/
structure FeatureSnapshot where
  preview_mode : Bool
  enable_thinking : Bool
  image_generation : Bool
  web_search : Bool
  auto_web_search : Bool
  flags : List String
deriving Repr, DecidableEq

/-- The `variables` map of a completion payload. -/
structure Variables where
  user_name : String
  user_location : String
  current_datetime : String
  current_date : String
  current_time : String
  current_weekday : String
  current_timezone : String
  user_language : String
  system_prompt : Option String
deriving Repr, DecidableEq

/-- The completion-request payload built by
`ChatState.build_completion_payload` (field per dict key). -/
structure CompletionPayload where
  stream : Bool
  model : String
  messages : List (String × String)
  signature_prompt : String
  params : List (String × String)
  extra : List (String × String)
  features : FeatureSnapshot
  variablesMap : Variables
  chat_id : Option String
  id : Option String
  current_user_message_id : Option String
  current_user_message_parent_id : Option String
  title_generation : Bool
  tags_generation : Bool
deriving Repr, DecidableEq

namespace ChatState

/-- `ChatState._system_params`: the aliased system-prompt block, empty when
the system prompt is falsy. -/
def system_params (st : ChatState) : List (String × String) :=
  if !pyTruthy st.system_prompt then []
  else
    let s := st.system_prompt.getD ""
    [("system", s), ("system_prompt", s), ("assistant_system_prompt", s)]

/-- `ChatState._system_extra`: as `_system_params` plus `instructions`. -/
def system_extra (st : ChatState) : List (String × String) :=
  if !pyTruthy st.system_prompt then []
  else
    let s := st.system_prompt.getD ""
    [("system", s), ("system_prompt", s), ("assistant_system_prompt", s),
     ("instructions", s)]

/-- `ChatState.build_completion_payload`.  The two `RuntimeError`s of the
source become `.error` values; `now` is the wall clock read at call time. -/
def build_completion_payload (st : ChatState) (now : WallClock) (prompt : String) :
    Except String CompletionPayload :=
  if !pyTruthy st.chat_id then
    .error "chat_id is required before completion"
  else if !pyTruthy st.current_user_message_id ||
          !pyTruthy st.current_assistant_message_id then
    .error "begin_turn must be called before build_completion_payload"
  else
    .ok
      { stream := true
        model := st.model
        messages := [("user", prompt)]
        signature_prompt := prompt
        params := st.system_params
        extra := st.system_extra
        features :=
          { preview_mode := (st.features.preview_mode).getD true
            enable_thinking := (st.features.enable_thinking).getD false
            image_generation := (st.features.image_generation).getD false
            web_search := (st.features.web_search).getD false
            auto_web_search := (st.features.auto_web_search).getD false
            flags := (st.features.flags).getD [] }
        variablesMap :=
          { user_name := st.user_name
            user_location := "Unknown"
            current_datetime := now.datetimeStr
            current_date := now.dateStr
            current_time := now.timeStr
            current_weekday := now.weekdayStr
            current_timezone := st.user_timezone
            user_language := st.user_language
            system_prompt :=
              if pyTruthy st.system_prompt then st.system_prompt else none }
        chat_id := st.chat_id
        id := st.current_assistant_message_id
        current_user_message_id := st.current_user_message_id
        current_user_message_parent_id := st.current_user_message_parent_id
        title_generation := true
        tags_generation := true }

end ChatState

/-! ## `zagent/core/client.py` — `ZAIClient.stream_completion`, transport

A decoded protocol event is a JSON object; the fields the consumer reads are
`type`, `data.delta_content`, `data.phase`, `data.done`.  The HTTP transport
and the JSON parser are external collaborators (requests / json); they are
modelled by `Transport` (what the network did on this call) and an injected
`decode` function standing for `json.loads` on a frame. -/

/-- The `data` member of a `chat:completion` event (missing keys are `none`). -/
structure CompletionData where
  delta_content : Option String := none
  phase : Option String := none
  done : Option Bool := none
deriving Repr, DecidableEq

/-- A decoded stream event. -/
structure StreamEvent where
  type_ : Option String := none
  data : CompletionData := {}
deriving Repr, DecidableEq

/-- What the network did on one `stream_completion` call: whether the POST
itself failed (connection error), whether the response status was non-2xx
(`raise_for_status`), the raw lines `iter_lines` delivered, and whether the
iteration then raised mid-stream. -/
structure Transport where
  connect_error : Bool := false
  status_error : Bool := false
  lines : List String := []
  midstream_error : Bool := false

/-- The frame-processing loop inside `stream_completion`: skip falsy lines,
strip a `data: ` prefix, skip empty and `[DONE]` frames, decode the rest
with `json.loads` (`decode`), silently skipping frames that fail to parse. -/
def parseLines (decode : String → Option StreamEvent) : List String → List StreamEvent
  | [] => []
  | l :: ls =>
    let rest := parseLines decode ls
    if l == "" then rest
    else
      let content := if l.startsWith "data: " then l.drop 6 else l
      if content == "" || content == "[DONE]" then rest
      else
        match decode content with
        | some e => e :: rest
        | none => rest

/-- `ZAIClient.stream_completion` as seen by its consumer.  The POST and
`raise_for_status` run before the `try` block, so a connection failure or a
non-2xx status raises out of the generator (at the consumer's first
`next()`); an exception *during* `iter_lines` iteration is swallowed by the
`except`, so a mid-stream failure merely truncates `t.lines` and the event
sequence ends silently. -/
def stream_completion (decode : String → Option StreamEvent) (t : Transport) :
    Except String (List StreamEvent) :=
  if t.connect_error then .error "requests.ConnectionError"
  else if t.status_error then .error "requests.HTTPError"
  else .ok (parseLines decode t.lines)

/-! ## `zagent/cli.py` — the turn-driving loop -/

/-- The trailing `if data.get("phase") == "done" or data.get("done") is
True:` check of the loop body: `finish_turn` on a terminal signal. -/
def finishIfDone (st : ChatState) (e : StreamEvent) : ChatState :=
  if e.data.phase == some "done" || e.data.done == some true then st.finish_turn
  else st

/-- The body of the `for event in client.stream_completion(...)` loop in
`_stream_current_turn`: returns the updated state and what was printed —
`(true, d)` for a thinking-styled delta, `(false, d)` for a plain one. -/
def processEvent (st : ChatState) (e : StreamEvent) : ChatState × List (Bool × String) :=
  if e.type_ != some "chat:completion" then (st, [])
  else if !pyTruthy e.data.delta_content then (st, [])
  else
    let d := e.data.delta_content.getD ""
    if (e.data.phase).getD "answer" == "thinking" && st.runtime_show_thinking then
      (finishIfDone st e, [(true, d)])
    else
      (finishIfDone (st.apply_assistant_delta d) e, [(false, d)])

/-- The whole event loop: fold `processEvent` over the decoded events,
accumulating the display output. -/
def processEvents (st : ChatState) : List StreamEvent → ChatState × List (Bool × String)
  | [] => (st, [])
  | e :: es =>
    let (st', out) := processEvent st e
    let (st'', outs) := processEvents st' es
    (st'', out ++ outs)

/-- `_stream_current_turn`: build the completion payload (may raise), run the
stream (a pre-stream transport failure raises out of the `for` loop), process
the events, and unconditionally `finish_turn` after the loop. -/
def stream_current_turn (now : WallClock) (decode : String → Option StreamEvent)
    (t : Transport) (st : ChatState) (prompt : String) : Except String ChatState :=
  match st.build_completion_payload now prompt with
  | .error e => .error e
  | .ok _ =>
    match stream_completion decode t with
    | .error e => .error e
    | .ok events => .ok (processEvents st events).1.finish_turn

/-- `_run_turn`: `begin_turn` then `_stream_current_turn`. -/
def run_turn (now : WallClock) (decode : String → Option StreamEvent)
    (t : Transport) (st : ChatState) (prompt : String) : Except String ChatState :=
  stream_current_turn now decode t (st.begin_turn prompt).2 prompt

/-! ## `zagent/tools/base.py`, `zagent/tools/__init__.py` — tools, registry -/

/-- The optional `context` dictionary threaded into `execute`. -/
abbrev ToolContext := List (String × String)

/-- A `BaseTool` implementation: the capability interface the registry
consumes (`name`, `can_handle`, `extract_request`, `execute`). -/
structure Tool where
  name : String
  can_handle : String → Bool
  extract_request : String → Option String
  execute : String → Option ToolContext → String

/-- `ToolResult` (`zagent/tools/base.py`): the fields, with `metadata` as an
insertion-ordered key/value list of already-stringified values. -/
structure ToolResult where
  tool_name : String
  request : String
  success : Bool
  output : String := ""
  error : String := ""
  metadata : List (String × String) := []
deriving Repr, DecidableEq

/-- `ToolResult.format`: the canonical rendering.  `output`/`error` lines are
included only when truthy (non-empty), then one line per metadata pair, all
joined by newlines. -/
def ToolResult.format (r : ToolResult) : String :=
  let lines :=
    ["TOOL_RESULT " ++ r.tool_name,
     "request: " ++ r.request,
     "success: " ++ (if r.success then "yes" else "no")]
    ++ (if r.output != "" then ["output:\n" ++ r.output] else [])
    ++ (if r.error != "" then ["error:\n" ++ r.error] else [])
    ++ r.metadata.map (fun kv => kv.1 ++ ": " ++ kv.2)
  String.intercalate "\n" lines

/-- `ToolRegistry`: `_tools` is a name-keyed insertion-ordered dict, modelled
as a list whose names are the keys; `_enabled_tools` is the set of enabled
names. -/
structure ToolRegistry where
  tools : List Tool := []
  enabled : List String := []

namespace ToolRegistry

/-- `ToolRegistry.register`: `self._tools[tool.name] = tool` keeps the
position of an existing key and appends a new one; the name is added to the
enabled set when `enabled` is true. -/
def register (r : ToolRegistry) (t : Tool) (enabled : Bool := true) : ToolRegistry :=
  { tools :=
      if r.tools.any (fun x => x.name == t.name) then
        r.tools.map (fun x => if x.name == t.name then t else x)
      else r.tools ++ [t]
    enabled :=
      if enabled && !r.enabled.contains t.name then r.enabled ++ [t.name]
      else r.enabled }

/-- `ToolRegistry.get_enabled_tools`: registered tools, in registration
order, restricted to the enabled set. -/
def get_enabled_tools (r : ToolRegistry) : List Tool :=
  r.tools.filter (fun t => r.enabled.contains t.name)

/-- `ToolRegistry.find_tool_for_message`: the first enabled tool whose
predicate matches. -/
def find_tool_for_message (r : ToolRegistry) (message : String) : Option Tool :=
  (r.get_enabled_tools).find? (fun t => t.can_handle message)

/-- `ToolRegistry.execute_if_applicable`: `(was_executed, result)`.  A
falsy extracted request (`None` *or* the empty string — Python's
`if not request:`) yields `(False, None)`. -/
def execute_if_applicable (r : ToolRegistry) (message : String)
    (context : Option ToolContext := none) : Bool × Option String :=
  match r.find_tool_for_message message with
  | none => (false, none)
  | some t =>
    match t.extract_request message with
    | none => (false, none)
    | some req =>
      if req == "" then (false, none)
      else (true, some (t.execute req context))

end ToolRegistry

/-! ## `zagent/cli.py` — `_run_turn_with_tools`

The client behaviour varies per call; the environment supplies the transport
of the `k`-th streaming call of the turn.  The iteration count of the tool
sub-loop is returned alongside the final state. -/

/-- The `for _ in range(max_iterations)` sub-loop of `_run_turn_with_tools`:
dispatch on the accumulated content; stop when not triggered; otherwise feed
the result text back as the next prompt.  Returns the state and the number
of tool-triggered iterations performed.  (`execute_if_applicable` never
returns `(true, none)` — see `execute_if_applicable_true_some` — so that
branch is dead.) -/
def toolLoop (now : WallClock) (decode : String → Option StreamEvent)
    (env : Nat → Transport) (registry : ToolRegistry) :
    Nat → Nat → ChatState → Except String (ChatState × Nat)
  | 0, _, st => .ok (st, 0)
  | fuel + 1, k, st =>
    match registry.execute_if_applicable st.current_assistant_content with
    | (false, _) => .ok (st, 0)
    | (true, none) => .ok (st, 0)
    | (true, some result) =>
      match run_turn now decode (env k) st result with
      | .error e => .error e
      | .ok st' =>
        match toolLoop now decode env registry fuel (k + 1) st' with
        | .error e => .error e
        | .ok (st'', n) => .ok (st'', n + 1)

/-- `_run_turn_with_tools`: one `_run_turn` on the human prompt, then the
capped tool sub-loop. -/
def run_turn_with_tools (now : WallClock) (decode : String → Option StreamEvent)
    (env : Nat → Transport) (registry : ToolRegistry) (st : ChatState)
    (prompt : String) (max_iterations : Nat := 3) : Except String (ChatState × Nat) :=
  match run_turn now decode (env 0) st prompt with
  | .error e => .error e
  | .ok st' => toolLoop now decode env registry max_iterations 1 st'

/-! ## Regex-free embedding of the tools' fixed patterns

The tools match fixed tag patterns with `re.search` and a lazy group
(`<tag>(.*?)</tag>`, `re.DOTALL`): the match is the leftmost position where
the whole pattern can match, with the shortest body.  `tagSearch` implements
exactly that for a literal open/close pair. -/

/-- The shortest prefix `b` of `s` such that `close` starts right after `b`
(the lazy `(.*?)` before a literal `close`); `none` when `close` does not
occur in `s`. -/
def lazyBody (close : List Char) : List Char → Option (List Char)
  | [] => if close.isPrefixOf ([] : List Char) then some [] else none
  | c :: rest =>
    if close.isPrefixOf (c :: rest) then some []
    else (lazyBody close rest).map (fun b => c :: b)

/-- `re.search(open + "(.*?)" + close, s, re.DOTALL)`: at the leftmost
position where `open` matches and `close` occurs later, return the shortest
body between them. -/
def tagSearch (opn close : List Char) : List Char → Option (List Char)
  | [] => none
  | c :: rest =>
    match (if opn.isPrefixOf (c :: rest) then
             lazyBody close ((c :: rest).drop opn.length)
           else none) with
    | some b => some b
    | none => tagSearch opn close rest

/-- The ASCII whitespace `str.strip()` removes (the code points occurring in
the repository's data). -/
def pyWhitespace (c : Char) : Bool :=
  c == ' ' || c == '\t' || c == '\n' || c == '\r' || c == '\x0b' || c == '\x0c'

/-- `str.strip()`: drop leading and trailing whitespace. -/
def pyStrip (l : List Char) : List Char :=
  ((l.dropWhile pyWhitespace).reverse.dropWhile pyWhitespace).reverse

/-! ### `zagent/tools/echo_tool.py` — `EchoTool` -/

/-- `re.search(r"<echo>(.*?)</echo>", message, re.DOTALL)`. -/
def echoTagSearch (message : String) : Option (List Char) :=
  tagSearch "<echo>".data "</echo>".data message.data

/-- `EchoTool` as a capability record. -/
def echoTool : Tool where
  name := "echo"
  can_handle := fun m => (echoTagSearch m).isSome
  extract_request := fun m => (echoTagSearch m).map (fun b => String.mk (pyStrip b))
  execute := fun req _ =>
    ToolResult.format
      { tool_name := "echo", request := req, success := true,
        output := "ECHO: " ++ req }

/-! ### `zagent/tools/report_tool.py` — `ReportTool`

The report document lives at a fixed path; the filesystem visible to the
tool is `Option String` (`none` = `report.md` does not exist).  The
`datetime.now().strftime(...)` timestamp is injected. -/

/-- Decimal digits, fuelled so that the kernel evaluates it: any
`fuel > n` suffices (see `natToDecAux_spec`). -/
def natToDecAux : Nat → Nat → List Nat
  | 0, _ => []
  | fuel + 1, n =>
    if n < 10 then [48 + n]
    else natToDecAux fuel (n / 10) ++ [48 + n % 10]

/-- Decimal digits (ASCII code points) of a natural number, as `str(n)`
renders it. -/
def natToDec (n : Nat) : List Nat := natToDecAux (n + 1) n

/-- The numeric value of a list of decimal digit code points (`int(s)` on a
digit string; also the spine of the round-trip proof for `natToDec`). -/
def decVal (ds : List Nat) : Nat :=
  ds.foldl (fun acc d => acc * 10 + (d - 48)) 0

/-- The numeric value of a list of decimal digit characters. -/
def natOfDigits (ds : List Char) : Nat :=
  ds.foldl (fun acc c => acc * 10 + (c.toNat - 48)) 0

/-- The scan of `findIds`, fuelled so that the kernel evaluates it: every
step consumes at least one character, so `fuel = s.length` suffices. -/
def findIdsAux : Nat → List Char → List Nat
  | 0, _ => []
  | fuel + 1, s =>
    match s with
    | [] => []
    | c :: rest =>
      if "### ID: ".data.isPrefixOf (c :: rest) then
        let after := (c :: rest).drop 8
        let run := after.takeWhile Char.isDigit
        if run.isEmpty then findIdsAux fuel rest
        else natOfDigits run :: findIdsAux fuel (after.dropWhile Char.isDigit)
      else findIdsAux fuel rest

/-- `re.findall(r"### ID: (\d+)", content)`, numerically: scan left to
right; at each position where the literal `"### ID: "` is followed by at
least one digit, record the value of the maximal digit run and resume after
it. -/
def findIds (s : List Char) : List Nat := findIdsAux s.length s

/-- `f"{n:03d}"`: decimal rendering left-padded with zeros to width 3. -/
def pad3 (n : Nat) : List Char :=
  let ds := (natToDec n).map Char.ofNat
  List.replicate (3 - ds.length) '0' ++ ds

/-- `ReportTool._get_next_id` over the report-file state: `"001"` when the
file does not exist or holds no `### ID:` entries, else the highest entry
id plus one, zero-padded to three digits. -/
def get_next_id (file : Option String) : String :=
  match file with
  | none => "001"
  | some content =>
    let ids := findIds content.data
    if ids.isEmpty then "001"
    else String.mk (pad3 ((ids.foldl max 0) + 1))

/-- Split at the first `|` (`request.split("|", 1)`), `none` when absent. -/
def splitFirstBar : List Char → Option (List Char × List Char)
  | [] => none
  | c :: rest =>
    if c == '|' then some ([], rest)
    else (splitFirstBar rest).map (fun p => (c :: p.1, p.2))

/-- The appended report entry text. -/
def reportEntry (id_ title timestamp content : String) : String :=
  "\n---\n### ID: " ++ id_ ++ "\n**Title**: " ++ title ++ "\n**Date**: " ++
    timestamp ++ "\n\n" ++ content ++ "\n"

/-- `ReportTool.execute` over the report-file state: returns the new file
content and the rendered `ToolResult`.  A request without `|` raises
`ValueError`, caught into a failure result; otherwise the next id is
allocated, the header is written only when the file does not yet exist, and
the entry is appended. -/
def report_execute (file : Option String) (request : String) (timestamp : String) :
    Option String × String :=
  match splitFirstBar request.data with
  | none =>
    (file,
     ToolResult.format
       { tool_name := "report", request := request, success := false,
         error := "Invalid report format" })
  | some (t, c) =>
    let title := String.mk t
    let content := String.mk c
    let next_id := get_next_id file
    let entry := reportEntry next_id title timestamp content
    let newFile :=
      match file with
      | none => "# ZAgent Security Report\n\n" ++ entry
      | some old => old ++ entry
    (some newFile,
     ToolResult.format
       { tool_name := "report", request := title, success := true,
         output := "Finding " ++ next_id ++ " successfully added to report.md",
         metadata := [("id", next_id), ("title", title)] })

/-! ## `zagent/core/client.py` — the signature engine

Byte-level part of the client.  Here a Python `str` is its sequence of
Unicode code points (`List Nat`) and `bytes` is a `List Nat` of values
`< 256`. -/

/-- UTF-8 encoding of one code point (RFC 3629, as `str.encode("utf-8")`). -/
def utf8EncodeChar (c : Nat) : List Nat :=
  if c < 128 then [c]
  else if c < 2048 then [192 + c / 64, 128 + c % 64]
  else if c < 65536 then [224 + c / 4096, 128 + (c / 64) % 64, 128 + c % 64]
  else [240 + c / 262144, 128 + (c / 4096) % 64, 128 + (c / 64) % 64, 128 + c % 64]

/-- `text.encode("utf-8")`. -/
def utf8Encode (s : List Nat) : List Nat :=
  (s.map utf8EncodeChar).flatten

/-- `bytes.decode("latin1")`: each byte becomes the code point of the same
value (total, and value-preserving). -/
def latin1Decode (bs : List Nat) : List Nat := bs

/-- `str.encode("latin1")`: each code point `< 256` becomes the byte of the
same value; raises (`none`) when any code point is `≥ 256`. -/
def latin1Encode (cps : List Nat) : Option (List Nat) :=
  if cps.all (fun c => c < 256) then some cps else none

/-- The base64 alphabet. -/
def b64Alphabet : List Char :=
  "ABCDEFGHIJKLMNOPQRSTUVWXYZabcdefghijklmnopqrstuvwxyz0123456789+/".data

/-- The base64 character of a 6-bit value. -/
def b64Char (n : Nat) : Char := b64Alphabet.getD n 'A'

/-- `base64.b64encode` on a byte sequence (standard alphabet, `=` padding). -/
def base64Encode : List Nat → List Char
  | [] => []
  | [b0] => [b64Char (b0 / 4), b64Char (b0 % 4 * 16), '=', '=']
  | [b0, b1] => [b64Char (b0 / 4), b64Char (b0 % 4 * 16 + b1 / 16),
                 b64Char (b1 % 16 * 4), '=']
  | b0 :: b1 :: b2 :: rest =>
    b64Char (b0 / 4) :: b64Char (b0 % 4 * 16 + b1 / 16) ::
    b64Char (b1 % 16 * 4 + b2 / 64) :: b64Char (b2 % 64) :: base64Encode rest

/-- `ZAIClient._js_like_base64`: UTF-8 encode, reinterpret the bytes as
latin-1 code points, re-encode as latin-1 bytes, base64.  (`none` would mark
a latin-1 encode error; it never occurs — see `js_like_base64_eq_naive`.) -/
def js_like_base64 (text : List Nat) : Option (List Char) :=
  (latin1Encode (latin1Decode (utf8Encode text))).map base64Encode

/-- Modelled from the spec's comparison point for the refinement claim:
"naive UTF-8-aware base64 of the action string" — base64 of the string's
UTF-8 bytes directly. -/
def naiveUtf8Base64 (text : List Nat) : List Char :=
  base64Encode (utf8Encode text)

/-! ### SHA-256 and HMAC (`hashlib.sha256`, `hmac.new`) -/

/-- 32-bit rotate right. -/
def rotr32 (n x : Nat) : Nat := ((x >>> n) ||| (x <<< (32 - n))) % 4294967296

/-- SHA-256 `Ch`. -/
def sha2Ch (e f g : Nat) : Nat := (e &&& f) ^^^ ((e ^^^ 4294967295) &&& g)

/-- SHA-256 `Maj`. -/
def sha2Maj (a b c : Nat) : Nat := (a &&& b) ^^^ (a &&& c) ^^^ (b &&& c)

/-- SHA-256 `Σ0`. -/
def sha2S0 (a : Nat) : Nat := rotr32 2 a ^^^ rotr32 13 a ^^^ rotr32 22 a

/-- SHA-256 `Σ1`. -/
def sha2S1 (e : Nat) : Nat := rotr32 6 e ^^^ rotr32 11 e ^^^ rotr32 25 e

/-- SHA-256 `σ0`. -/
def sha2s0 (x : Nat) : Nat := rotr32 7 x ^^^ rotr32 18 x ^^^ (x >>> 3)

/-- SHA-256 `σ1`. -/
def sha2s1 (x : Nat) : Nat := rotr32 17 x ^^^ rotr32 19 x ^^^ (x >>> 10)

/-- The SHA-256 round constants. -/
def sha256K : List Nat :=
  [1116352408, 1899447441, 3049323471, 3921009573, 961987163,
   1508970993, 2453635748, 2870763221, 3624381080, 310598401,
   607225278, 1426881987, 1925078388, 2162078206, 2614888103,
   3248222580, 3835390401, 4022224774, 264347078, 604807628,
   770255983, 1249150122, 1555081692, 1996064986, 2554220882,
   2821834349, 2952996808, 3210313671, 3336571891, 3584528711,
   113926993, 338241895, 666307205, 773529912, 1294757372,
   1396182291, 1695183700, 1986661051, 2177026350, 2456956037,
   2730485921, 2820302411, 3259730800, 3345764771, 3516065817,
   3600352804, 4094571909, 275423344, 430227734, 506948616,
   659060556, 883997877, 958139571, 1322822218, 1537002063,
   1747873779, 1955562222, 2024104815, 2227730452, 2361852424,
   2428436474, 2756734187, 3204031479, 3329325298]

/-- The SHA-256 initial hash value. -/
def sha256H0 : List Nat :=
  [1779033703, 3144134277, 1013904242, 2773480762,
   1359893119, 2600822924, 528734635, 1541459225]

/-- The eight SHA-256 working variables. -/
structure Sha256Vars where
  a : Nat
  b : Nat
  c : Nat
  d : Nat
  e : Nat
  f : Nat
  g : Nat
  hh : Nat
deriving Repr, DecidableEq

/-- One SHA-256 compression round, fed a `(K_t, W_t)` pair. -/
def sha256Round (s : Sha256Vars) (kw : Nat × Nat) : Sha256Vars :=
  let t1 := (s.hh + sha2S1 s.e + sha2Ch s.e s.f s.g + kw.1 + kw.2) % 4294967296
  let t2 := (sha2S0 s.a + sha2Maj s.a s.b s.c) % 4294967296
  { a := (t1 + t2) % 4294967296, b := s.a, c := s.b, d := s.c,
    e := (s.d + t1) % 4294967296, f := s.e, g := s.f, hh := s.g }

/-- Extend the 16-word block to the 64-word message schedule (each step
appends one word; `fuel = 48`). -/
def sha256Extend : List Nat → Nat → List Nat
  | ws, 0 => ws
  | ws, fuel + 1 =>
    let n := ws.length
    let w := (ws.getD (n - 16) 0 + sha2s0 (ws.getD (n - 15) 0) +
              ws.getD (n - 7) 0 + sha2s1 (ws.getD (n - 2) 0)) % 4294967296
    sha256Extend (ws ++ [w]) fuel

/-- Compress one 16-word block into the running hash value. -/
def sha256Compress (H : List Nat) (block : List Nat) : List Nat :=
  let W := sha256Extend block 48
  let init : Sha256Vars :=
    { a := H.getD 0 0, b := H.getD 1 0, c := H.getD 2 0, d := H.getD 3 0,
      e := H.getD 4 0, f := H.getD 5 0, g := H.getD 6 0, hh := H.getD 7 0 }
  let s := (sha256K.zip W).foldl sha256Round init
  [(H.getD 0 0 + s.a) % 4294967296, (H.getD 1 0 + s.b) % 4294967296,
   (H.getD 2 0 + s.c) % 4294967296, (H.getD 3 0 + s.d) % 4294967296,
   (H.getD 4 0 + s.e) % 4294967296, (H.getD 5 0 + s.f) % 4294967296,
   (H.getD 6 0 + s.g) % 4294967296, (H.getD 7 0 + s.hh) % 4294967296]

/-- A natural number as `k` big-endian bytes. -/
def natToBytesBE : Nat → Nat → List Nat
  | 0, _ => []
  | k + 1, n => natToBytesBE k (n / 256) ++ [n % 256]

/-- SHA-256 padding: `0x80`, zeros to 56 mod 64, the bit length as 8
big-endian bytes. -/
def sha256Pad (msg : List Nat) : List Nat :=
  let len := msg.length
  let zeros := (64 + 56 - (len + 1) % 64) % 64
  msg ++ [128] ++ List.replicate zeros 0 ++ natToBytesBE 8 (len * 8)

/-- Big-endian bytes to 32-bit words (length a multiple of 4 after padding). -/
def bytesToWords : List Nat → List Nat
  | b0 :: b1 :: b2 :: b3 :: rest =>
    (((b0 * 256 + b1) * 256 + b2) * 256 + b3) :: bytesToWords rest
  | _ => []

/-- Split a word list into 16-word blocks. -/
def toBlocks (ws : List Nat) : List (List Nat) :=
  if ws.isEmpty then []
  else ws.take 16 :: toBlocks (ws.drop 16)
termination_by ws.length
decreasing_by
  have hne : ws ≠ [] := by
    intro h
    simp [h] at *
  have : 0 < ws.length := List.length_pos.mpr hne
  simp only [List.length_drop]
  omega

/-- One 32-bit word as 4 big-endian bytes. -/
def wordToBytes (w : Nat) : List Nat :=
  [w / 16777216 % 256, w / 65536 % 256, w / 256 % 256, w % 256]

/-- `hashlib.sha256(msg).digest()`: the 32 digest bytes. -/
def sha256Bytes (msg : List Nat) : List Nat :=
  (((toBlocks (bytesToWords (sha256Pad msg))).foldl sha256Compress sha256H0).map
    wordToBytes).flatten

/-- A byte sequence read as a big-endian natural number. -/
def bytesToNat (bs : List Nat) : Nat :=
  bs.foldl (fun acc b => acc * 256 + b) 0

/-- The hex character (code point) of a 4-bit value, lowercase. -/
def hexDigitCode (n : Nat) : Nat := if n < 10 then 48 + n else 87 + n

/-- `.hexdigest()`: two lowercase hex code points per digest byte. -/
def hexOfBytes (bs : List Nat) : List Nat :=
  (bs.map (fun b => [hexDigitCode (b / 16), hexDigitCode (b % 16)])).flatten

/-- `hmac.new(key, msg, hashlib.sha256).digest()` (block size 64). -/
def hmacSha256 (key msg : List Nat) : List Nat :=
  let k0 := if key.length > 64 then sha256Bytes key else key
  let k := k0 ++ List.replicate (64 - k0.length) 0
  let inner := sha256Bytes ((k.map (fun b => b ^^^ 54)) ++ msg)
  sha256Bytes ((k.map (fun b => b ^^^ 92)) ++ inner)

/-- The code points of a Lean string (a Python `str` literal). -/
def strCodes (s : String) : List Nat := s.data.map Char.toNat

/-- `SECRET` (`zagent/core/client.py`). -/
def secretCodes : List Nat := strCodes "key-@@@@)))()((9))-xxxx&&&%%%%%"

/-- `d_hex` of `_generate_signature`: the hex digest of HMAC-SHA256 of
`str(timestamp_ms // 300000)` under `SECRET` (as code points). -/
def windowKeyHex (timestamp_ms : Nat) : List Nat :=
  let w := timestamp_ms / (5 * 60 * 1000)
  hexOfBytes (hmacSha256 (utf8Encode secretCodes) (utf8Encode (natToDec w)))

/-- The string `f"{sorted_payload}|{_js_like_base64(action)}|{timestamp_ms}"`
hashed by the final keyed hash of `_generate_signature` (as code points). -/
def signaturePayload (sorted_payload action : List Nat) (timestamp_ms : Nat) : List Nat :=
  sorted_payload ++ [124] ++
    ((js_like_base64 action).getD []).map Char.toNat ++ [124] ++ natToDec timestamp_ms

/-- `ZAIClient._generate_signature`: derive the 5-minute-window key by
HMAC-SHA256 of the window index under `SECRET`, then HMAC-SHA256 of
`sorted_payload | js_like_base64(action) | timestamp_ms` under the hex of
that window key; the signature is the lowercase hex digest (as code
points). -/
def generate_signature (sorted_payload action : List Nat) (timestamp_ms : Nat) :
    List Nat :=
  hexOfBytes (hmacSha256 (utf8Encode (windowKeyHex timestamp_ms))
    (utf8Encode (signaturePayload sorted_payload action timestamp_ms)))

/-! ## Concrete fixtures used by witnesses and counterexamples -/

/-- A deterministic uuid supply: `"u000"`, `"u001"`, … -/
def testUuidSeq : Nat → String := fun i => "u" ++ String.mk (pad3 i)

/-- A state with a conversation id and the deterministic uuid supply. -/
def testState : ChatState :=
  { chat_id := some "chat-1", uuidSeq := testUuidSeq }

/-- `testState` with `runtime_show_thinking` disabled. -/
def noThinkState : ChatState :=
  { testState with runtime_show_thinking := false }

/-- A thinking-phase completion event carrying the delta `"think"`. -/
def thinkEvent : StreamEvent :=
  { type_ := some "chat:completion",
    data := { delta_content := some "think", phase := some "thinking" } }

/-- An answer-phase completion event carrying the delta `"Hello"`. -/
def answerEvent : StreamEvent :=
  { type_ := some "chat:completion",
    data := { delta_content := some "Hello", phase := some "answer" } }

/-- A decoder recognising the single frame body `"E-answer"`. -/
def testDecode : String → Option StreamEvent :=
  fun s => if s == "E-answer" then some answerEvent else none

/-- A registry holding just the echo tool, enabled. -/
def testRegistry : ToolRegistry := ToolRegistry.register {} echoTool

end ZAgent

namespace ZAgent

theorem processEvent_fst_preserves (st : ChatState) (e : StreamEvent) :
    ((processEvent st e).1.current_assistant_message_id = st.current_assistant_message_id) ∧
    ((processEvent st e).1.current_user_message_id = st.current_user_message_id) ∧
    ((processEvent st e).1.chat_id = st.chat_id) ∧
    ((processEvent st e).1.uuidSeq = st.uuidSeq) ∧
    ((processEvent st e).1.uuidPos = st.uuidPos) := by
  unfold processEvent finishIfDone ChatState.apply_assistant_delta ChatState.finish_turn
  repeat' split
  all_goals simp

theorem processEvents_fst_preserves (es : List StreamEvent) (st : ChatState) :
    ((processEvents st es).1.current_assistant_message_id = st.current_assistant_message_id) ∧
    ((processEvents st es).1.current_user_message_id = st.current_user_message_id) ∧
    ((processEvents st es).1.chat_id = st.chat_id) ∧
    ((processEvents st es).1.uuidSeq = st.uuidSeq) ∧
    ((processEvents st es).1.uuidPos = st.uuidPos) := by
  induction es generalizing st with
  | nil => exact ⟨rfl, rfl, rfl, rfl, rfl⟩
  | cons e es ih =>
    have key : (processEvents st (e :: es)).1 = (processEvents (processEvent st e).1 es).1 := rfl
    have h1 := processEvent_fst_preserves st e
    have h2 := ih (processEvent st e).1
    rw [key]
    exact ⟨h2.1.trans h1.1, h2.2.1.trans h1.2.1, h2.2.2.1.trans h1.2.2.1,
           h2.2.2.2.1.trans h1.2.2.2.1, h2.2.2.2.2.trans h1.2.2.2.2⟩

theorem build_ok_fields (st : ChatState) (now : WallClock) (prompt : String)
    (pl : CompletionPayload) (h : st.build_completion_payload now prompt = .ok pl) :
    pl.id = st.current_assistant_message_id ∧
    pl.current_user_message_id = st.current_user_message_id ∧
    pl.current_user_message_parent_id = st.current_user_message_parent_id := by
  unfold ChatState.build_completion_payload at h
  split at h
  · exact Except.noConfusion h
  · split at h
    · exact Except.noConfusion h
    · cases h
      exact ⟨rfl, rfl, rfl⟩

theorem build_ok_of_truthy (st : ChatState) (now : WallClock) (prompt : String)
    (h1 : pyTruthy st.chat_id = true) (h2 : pyTruthy st.current_user_message_id = true)
    (h3 : pyTruthy st.current_assistant_message_id = true) :
    ∃ pl, st.build_completion_payload now prompt = .ok pl := by
  unfold ChatState.build_completion_payload
  simp [h1, h2, h3]

end ZAgent

namespace ZAgent

/-- C10: `finish_turn` is idempotent — calling it twice with no state change
in between leaves the state exactly as one call does, so no observable
effect differs between one and two invocations. -/
theorem finish_turn_idempotent (st : ChatState) :
    st.finish_turn.finish_turn = st.finish_turn := rfl

/-- C3 (evaluation at the failing input): with `runtime_show_thinking`
disabled, a `"thinking"`-phase delta *is* appended to
`current_assistant_content` by the event loop, although the claim says
thinking deltas are never appended in any configuration. -/
theorem thinking_delta_appended_when_hidden :
    noThinkState.runtime_show_thinking = false ∧
    thinkEvent.data.phase = some "thinking" ∧
    noThinkState.current_assistant_content = "" ∧
    (processEvents noThinkState [thinkEvent]).1.current_assistant_content = "think" := by
  exact ⟨rfl, rfl, rfl, rfl⟩

/-- C6: building a completion payload with a falsy conversation id, or with
the turn ids unset, fails with the corresponding state-precondition error;
with all three set it succeeds, and the payload carries exactly the current
assistant-message id, user-message id and parent-link id of the state. -/
theorem build_completion_payload_preconditions (st : ChatState) (now : WallClock)
    (prompt : String) :
    (pyTruthy st.chat_id = false →
      st.build_completion_payload now prompt =
        .error "chat_id is required before completion") ∧
    (pyTruthy st.chat_id = true →
      (pyTruthy st.current_user_message_id = false ∨
       pyTruthy st.current_assistant_message_id = false) →
      st.build_completion_payload now prompt =
        .error "begin_turn must be called before build_completion_payload") ∧
    (pyTruthy st.chat_id = true →
     pyTruthy st.current_user_message_id = true →
     pyTruthy st.current_assistant_message_id = true →
      ∃ pl, st.build_completion_payload now prompt = .ok pl ∧
        pl.id = st.current_assistant_message_id ∧
        pl.current_user_message_id = st.current_user_message_id ∧
        pl.current_user_message_parent_id = st.current_user_message_parent_id) := by
  refine ⟨fun h => ?_, fun h1 h2 => ?_, fun h1 h2 h3 => ?_⟩
  · unfold ChatState.build_completion_payload
    simp [h]
  · unfold ChatState.build_completion_payload
    rcases h2 with h2 | h2 <;> simp [h1, h2]
  · obtain ⟨pl, hpl⟩ := build_ok_of_truthy st now prompt h1 h2 h3
    exact ⟨pl, hpl, build_ok_fields st now prompt pl hpl⟩

/-- Witness for C6: a state straight after `begin_turn` with a conversation
id builds successfully and embeds its own current/parent identifiers. -/
theorem build_completion_payload_preconditions_witness :
    ∃ pl, ((testState.begin_turn "p").2).build_completion_payload {} "p" = .ok pl ∧
      pl.id = ((testState.begin_turn "p").2).current_assistant_message_id ∧
      pl.current_user_message_id = ((testState.begin_turn "p").2).current_user_message_id ∧
      pl.current_user_message_parent_id =
        ((testState.begin_turn "p").2).current_user_message_parent_id :=
  (build_completion_payload_preconditions (testState.begin_turn "p").2 {} "p").2.2
    (by decide) (by decide) (by decide)

/-- C1: when turn `n` completes (its stream may have delivered anything,
including zero terminal events), the parent link visible after `begin_turn`
of turn `n+1` — and the parent-link field of any completion payload built
for turn `n+1` — is exactly the assistant-message id allocated by
`begin_turn` during turn `n`. -/
theorem parent_link_threading
    (now : WallClock) (decode : String → Option StreamEvent) (t : Transport)
    (st st₁ : ChatState) (p₁ p₂ : String)
    (h : run_turn now decode t st p₁ = .ok st₁) :
    (st₁.begin_turn p₂).2.current_user_message_parent_id
      = some (st.begin_turn p₁).1.2 ∧
    ∀ now₂ pl, (st₁.begin_turn p₂).2.build_completion_payload now₂ p₂ = .ok pl →
      pl.current_user_message_parent_id = some (st.begin_turn p₁).1.2 := by
  unfold run_turn stream_current_turn at h
  revert h
  cases hb : ChatState.build_completion_payload (st.begin_turn p₁).2 now p₁ with
  | error e => exact fun h => Except.noConfusion h
  | ok pl₀ =>
    cases hs : stream_completion decode t with
    | error e => exact fun h => Except.noConfusion h
    | ok evs =>
      intro h
      injection h with h'
      subst h'
      have hp := (processEvents_fst_preserves evs (st.begin_turn p₁).2).1
      refine ⟨hp, ?_⟩
      intro now₂ pl hpl
      exact (build_ok_fields _ now₂ p₂ pl hpl).2.2.trans hp

/-- Witness for C1: a concrete two-turn run (empty stream, hence zero
terminal events) threads the allocated assistant id into the next turn. -/
theorem parent_link_threading_witness :
    ((((testState.begin_turn "hi").2).finish_turn).begin_turn "next").2.current_user_message_parent_id
      = some (testState.begin_turn "hi").1.2 :=
  (parent_link_threading {} testDecode {} testState
    (((testState.begin_turn "hi").2).finish_turn) "hi" "next" rfl).1

end ZAgent

namespace ZAgent

/-- The deterministic test uuid supply never returns an empty identifier. -/
theorem testUuidSeq_ne_empty (i : Nat) : testUuidSeq i ≠ "" := by
  intro h
  have hl := congrArg String.length h
  simp [testUuidSeq, String.length_append] at hl
  exact absurd hl.1 (by decide)

/-- C4 counterexample: a non-2xx response (`raise_for_status` runs before
the swallowing `try`) raises out of the turn driver — the event sequence is
not silently ended and the safety `finish_turn` does not run, contrary to
the claim that every transport error degrades silently. -/
theorem transport_status_error_propagates :
    stream_current_turn {} testDecode { status_error := true }
        (testState.begin_turn "hi").2 "hi"
      = .error "requests.HTTPError" := rfl

/-- C4 amended: for *mid-stream* failures (connection established, 2xx
status, iteration possibly raising after some delivered lines) the turn
driver returns normally: the events parsed from the delivered lines are
applied, the accumulated content is preserved, and the unconditional safety
`finish_turn` establishes the parent link. -/
theorem transport_midstream_degrades
    (now : WallClock) (decode : String → Option StreamEvent) (t : Transport)
    (st : ChatState) (prompt : String)
    (hc : t.connect_error = false) (hs : t.status_error = false)
    (h1 : pyTruthy st.chat_id = true)
    (h2 : pyTruthy st.current_user_message_id = true)
    (h3 : pyTruthy st.current_assistant_message_id = true) :
    stream_current_turn now decode t st prompt
      = .ok (processEvents st (parseLines decode t.lines)).1.finish_turn ∧
    ((processEvents st (parseLines decode t.lines)).1.finish_turn).current_user_message_parent_id
      = st.current_assistant_message_id := by
  obtain ⟨pl, hpl⟩ := build_ok_of_truthy st now prompt h1 h2 h3
  constructor
  · unfold stream_current_turn stream_completion
    simp [hpl, hc, hs]
  · exact (processEvents_fst_preserves (parseLines decode t.lines) st).1

/-- Witness for C4 (amended): a concrete stream cut off by a mid-stream
network failure still yields a normal return. -/
theorem transport_midstream_degrades_witness :
    stream_current_turn {} testDecode
        { lines := ["data: E-answer", "junk", "[DONE]"], midstream_error := true }
        (testState.begin_turn "hi").2 "hi"
      = .ok (processEvents (testState.begin_turn "hi").2
          (parseLines testDecode ["data: E-answer", "junk", "[DONE]"])).1.finish_turn :=
  (transport_midstream_degrades {} testDecode
    { lines := ["data: E-answer", "junk", "[DONE]"], midstream_error := true }
    (testState.begin_turn "hi").2 "hi" rfl rfl (by decide) (by decide) (by decide)).1

/-- A completed `run_turn` under a working transport, from a state with a
truthy conversation id and a uuid supply of non-empty identifiers: it
returns normally and preserves the conversation id and the supply. -/
theorem run_turn_ok (now : WallClock) (decode : String → Option StreamEvent)
    (t : Transport) (st : ChatState) (prompt : String)
    (hc : t.connect_error = false) (hs : t.status_error = false)
    (hcid : pyTruthy st.chat_id = true) (hseq : ∀ i, st.uuidSeq i ≠ "") :
    ∃ st', run_turn now decode t st prompt = .ok st' ∧
      st'.chat_id = st.chat_id ∧ st'.uuidSeq = st.uuidSeq := by
  have h2 : pyTruthy ((st.begin_turn prompt).2.current_user_message_id) = true := by
    show pyTruthy (some (st.uuidSeq st.uuidPos)) = true
    simp [pyTruthy]
    exact hseq _
  have h3 : pyTruthy ((st.begin_turn prompt).2.current_assistant_message_id) = true := by
    show pyTruthy (some (st.uuidSeq (st.uuidPos + 1))) = true
    simp [pyTruthy]
    exact hseq _
  obtain ⟨pl, hpl⟩ := build_ok_of_truthy (st.begin_turn prompt).2 now prompt hcid h2 h3
  refine ⟨(processEvents (st.begin_turn prompt).2 (parseLines decode t.lines)).1.finish_turn,
    ?_, ?_, ?_⟩
  · unfold run_turn stream_current_turn stream_completion
    simp [hpl, hc, hs]
  · exact (processEvents_fst_preserves (parseLines decode t.lines) (st.begin_turn prompt).2).2.2.1
  · exact (processEvents_fst_preserves (parseLines decode t.lines) (st.begin_turn prompt).2).2.2.2.1

/-- The tool sub-loop returns normally under a working transport and
performs at most `fuel` iterations. -/
theorem toolLoop_ok (now : WallClock) (decode : String → Option StreamEvent)
    (env : Nat → Transport) (registry : ToolRegistry) (fuel k : Nat) (st : ChatState)
    (henv : ∀ j, (env j).connect_error = false ∧ (env j).status_error = false)
    (hcid : pyTruthy st.chat_id = true) (hseq : ∀ i, st.uuidSeq i ≠ "") :
    ∃ st' n, toolLoop now decode env registry fuel k st = .ok (st', n) ∧ n ≤ fuel := by
  induction fuel generalizing k st with
  | zero => exact ⟨st, 0, rfl, Nat.le_refl 0⟩
  | succ fuel ih =>
    rcases hdisp : registry.execute_if_applicable st.current_assistant_content with ⟨b, r⟩
    cases b
    · exact ⟨st, 0, by simp [toolLoop, hdisp], by omega⟩
    · cases r with
      | none => exact ⟨st, 0, by simp [toolLoop, hdisp], by omega⟩
      | some result =>
        obtain ⟨st', hrt, hchat, hsq⟩ :=
          run_turn_ok now decode (env k) st result (henv k).1 (henv k).2 hcid hseq
        obtain ⟨st'', n, hloop, hn⟩ := ih (k + 1) st'
          (by rw [hchat]; exact hcid) (fun i => by rw [hsq]; exact hseq i)
        refine ⟨st'', n + 1, ?_, by omega⟩
        simp [toolLoop, hdisp, hrt, hloop]

/-- C2: for a single human turn, the tool-dispatch loop performs at most
`max_iterations` tool-triggered iterations — however many consecutive
triggers the accumulated content would imply — and reaching the cap stops
the loop and returns control normally, with no error raised. -/
theorem tool_iteration_cap (now : WallClock) (decode : String → Option StreamEvent)
    (env : Nat → Transport) (registry : ToolRegistry) (st : ChatState)
    (prompt : String) (max_iterations : Nat)
    (henv : ∀ j, (env j).connect_error = false ∧ (env j).status_error = false)
    (hcid : pyTruthy st.chat_id = true) (hseq : ∀ i, st.uuidSeq i ≠ "") :
    ∃ st' n, run_turn_with_tools now decode env registry st prompt max_iterations
        = .ok (st', n) ∧ n ≤ max_iterations := by
  obtain ⟨st₀, hrt, hchat, hsq⟩ :=
    run_turn_ok now decode (env 0) st prompt (henv 0).1 (henv 0).2 hcid hseq
  obtain ⟨st', n, hloop, hn⟩ := toolLoop_ok now decode env registry max_iterations 1 st₀
    henv (by rw [hchat]; exact hcid) (fun i => by rw [hsq]; exact hseq i)
  exact ⟨st', n, by simp [run_turn_with_tools, hrt, hloop], hn⟩

/-- Witness for C2: a concrete capped run (empty registry, clean transport)
returns normally within the cap. -/
theorem tool_iteration_cap_witness :
    ∃ st' n, run_turn_with_tools {} testDecode (fun _ => {}) {} testState "hi" 3
        = .ok (st', n) ∧ n ≤ 3 :=
  tool_iteration_cap {} testDecode (fun _ => {}) {} testState "hi" 3
    (fun _ => ⟨rfl, rfl⟩) (by decide) testUuidSeq_ne_empty

end ZAgent

namespace ZAgent

/-- `List.find?` decomposition: a found element splits the list into a
prefix of failures, the hit, and a tail — i.e. the *first* satisfying
element is returned. -/
theorem find?_decomposition {α : Type} (p : α → Bool) (l : List α) (t : α)
    (h : l.find? p = some t) :
    ∃ pre post, l = pre ++ t :: post ∧ (∀ u ∈ pre, p u = false) ∧ p t = true := by
  induction l with
  | nil => cases h
  | cons x xs ih =>
    cases hp : p x with
    | true =>
      have hx : some x = some t := by rw [← h]; simp [List.find?, hp]
      injection hx with hxt
      subst hxt
      exact ⟨[], xs, rfl, by simp, hp⟩
    | false =>
      have h' : xs.find? p = some t := by rw [← h]; simp [List.find?, hp]
      obtain ⟨pre, post, he, hpre, hpt⟩ := ih h'
      refine ⟨x :: pre, post, by rw [he]; rfl, ?_, hpt⟩
      intro u hu
      rcases List.mem_cons.mp hu with hux | hupre
      · rw [hux]; exact hp
      · exact hpre u hupre

/-- A triggered dispatch always carries a result string: the `(true, none)`
shape is unreachable for `execute_if_applicable`. -/
theorem execute_if_applicable_true_some (r : ToolRegistry) (m : String)
    (c : Option ToolContext) (o : Option String)
    (h : r.execute_if_applicable m c = (true, o)) : ∃ s, o = some s := by
  unfold ToolRegistry.execute_if_applicable at h
  rcases hf : r.find_tool_for_message m with _ | t
  · rw [hf] at h
    exact absurd h (by simp)
  · rw [hf] at h
    dsimp only at h
    rcases he : t.extract_request m with _ | req
    · rw [he] at h
      exact absurd h (by simp)
    · rw [he] at h
      dsimp only at h
      by_cases hreq : (req == "") = true
      · rw [if_pos hreq] at h
        exact absurd h (by simp)
      · rw [if_neg hreq] at h
        injection h with h1 h2
        exact ⟨t.execute req c, h2.symm⟩

/-- C8 counterexample: on `"<echo> </echo>"` the echo tool's predicate
matches and extraction yields `some ""` (not `none`), yet dispatch returns
not-triggered — Python's falsy check also rejects the empty string, so the
claim's "otherwise it executes the matched tool" fails here. -/
theorem dispatch_empty_extraction :
    echoTool.can_handle "<echo> </echo>" = true ∧
    echoTool.extract_request "<echo> </echo>" = some "" ∧
    testRegistry.find_tool_for_message "<echo> </echo>" = some echoTool ∧
    testRegistry.execute_if_applicable "<echo> </echo>" none = (false, none) :=
  ⟨by decide, by decide, rfl, by decide⟩

/-- C8 amended: dispatch returns not-triggered when no enabled tool
matches, *and* when the matched tool extracts `none` **or the empty
string**; otherwise it executes the first-registered matching enabled tool
on the extracted request and returns its rendered result.  Matching scans
the enabled tools in registration order. -/
theorem dispatch_contract (r : ToolRegistry) (msg : String) (ctx : Option ToolContext) :
    (r.find_tool_for_message msg = none →
       r.execute_if_applicable msg ctx = (false, none)) ∧
    (∀ t, r.find_tool_for_message msg = some t →
       t.extract_request msg = none ∨ t.extract_request msg = some "" →
       r.execute_if_applicable msg ctx = (false, none)) ∧
    (∀ t req, r.find_tool_for_message msg = some t →
       t.extract_request msg = some req → req ≠ "" →
       r.execute_if_applicable msg ctx = (true, some (t.execute req ctx))) ∧
    (∀ t, r.find_tool_for_message msg = some t →
       ∃ pre post, r.get_enabled_tools = pre ++ t :: post ∧
         (∀ u ∈ pre, u.can_handle msg = false) ∧ t.can_handle msg = true) ∧
    (r.find_tool_for_message msg = none →
       ∀ u ∈ r.get_enabled_tools, u.can_handle msg = false) := by
  refine ⟨?_, ?_, ?_, ?_, ?_⟩
  · intro h
    unfold ToolRegistry.execute_if_applicable
    rw [h]
  · intro t hf he
    unfold ToolRegistry.execute_if_applicable
    rw [hf]
    dsimp only
    rcases he with he | he <;> rw [he]
    rfl
  · intro t req hf he hreq
    unfold ToolRegistry.execute_if_applicable
    rw [hf]
    dsimp only
    rw [he]
    simp [hreq]
  · intro t hf
    unfold ToolRegistry.find_tool_for_message at hf
    exact find?_decomposition _ _ _ hf
  · intro h u hu
    unfold ToolRegistry.find_tool_for_message at h
    simpa using List.find?_eq_none.mp h u hu

/-- Witness for C8 (amended): a well-formed echo request is dispatched to
the echo tool and returns its rendered result. -/
theorem dispatch_contract_witness :
    testRegistry.execute_if_applicable "<echo>hi</echo>" none
      = (true, some (echoTool.execute "hi" none)) :=
  (dispatch_contract testRegistry "<echo>hi</echo>" none).2.2.1 echoTool "hi"
    rfl (by decide) (by decide)

end ZAgent

namespace ZAgent

/-- C9 counterexample: a report file that exists but contains no `### ID:`
entries allocates `"001"` but gets **no** header — the header is written
only when the file does not exist, so the claim's "(or contains no entry
identifiers) … the document header is written" fails here. -/
theorem report_existing_without_ids_no_header :
    get_next_id (some "hello") = "001" ∧
    (report_execute (some "hello") "T|C" "2024-01-01 10:00:00").1
      = some ("hello" ++ reportEntry "001" "T" "2024-01-01 10:00:00" "C") ∧
    ("# ZAgent Security Report".data.isPrefixOf
        ("hello" ++ reportEntry "001" "T" "2024-01-01 10:00:00" "C").data) = false :=
  ⟨by decide, by decide, by decide⟩

/-- C9 amended: the header is written exactly when the report document does
not yet exist; `"001"` is allocated when the document is absent *or* holds
no entry identifiers; otherwise the highest existing `### ID:` value plus
one, zero-padded to three digits, is allocated and the entry is appended
with no header.  A first report call of a fresh run allocates `"001"` and a
second allocates `"002"`. -/
theorem report_id_allocation :
    (∀ req ts t c, splitFirstBar req.data = some (t, c) →
       (report_execute none req ts).1
         = some ("# ZAgent Security Report\n\n" ++
             reportEntry "001" (String.mk t) ts (String.mk c))) ∧
    (∀ old req ts t c, splitFirstBar req.data = some (t, c) →
       (report_execute (some old) req ts).1
         = some (old ++
             reportEntry (get_next_id (some old)) (String.mk t) ts (String.mk c))) ∧
    (get_next_id none = "001") ∧
    (∀ old, findIds old.data = [] → get_next_id (some old) = "001") ∧
    (∀ old, findIds old.data ≠ [] →
       get_next_id (some old) = String.mk (pad3 ((findIds old.data).foldl max 0 + 1))) ∧
    (get_next_id (report_execute none "X|finding" "2024-01-01 10:00:00").1 = "002") := by
  refine ⟨?_, ?_, rfl, ?_, ?_, by decide⟩
  · intro req ts t c h
    unfold report_execute
    rw [h]
    rfl
  · intro old req ts t c h
    unfold report_execute
    rw [h]
  · intro old h
    unfold get_next_id
    simp [h]
  · intro old h
    unfold get_next_id
    simp [List.isEmpty_iff, h]

/-- Witness for C9 (amended): the first report call of a fresh run writes
the header and entry `"001"`. -/
theorem report_id_allocation_witness :
    (report_execute none "X|finding" "2024-01-01 10:00:00").1
      = some ("# ZAgent Security Report\n\n" ++
          reportEntry "001" "X" "2024-01-01 10:00:00" "finding") :=
  report_id_allocation.1 "X|finding" "2024-01-01 10:00:00" "X".data "finding".data
    (by decide)

end ZAgent

namespace ZAgent

/-- C5 counterexample: for the non-ASCII action `"é"` (code point 233) the
quirk encoding and naive base64-of-UTF-8-bytes *coincide* (both `"w6k="`):
the latin-1 decode/encode round trip is the identity on bytes, so no
non-ASCII action makes them differ, contrary to the claim. -/
theorem js_like_base64_matches_naive_on_nonascii :
    (∃ c ∈ [233], 127 < c) ∧
    js_like_base64 [233] = some (naiveUtf8Base64 [233]) ∧
    naiveUtf8Base64 [233] = ['w', '6', 'k', '='] := by
  refine ⟨⟨233, by simp, by omega⟩, by decide, by decide⟩

/-- Every byte of the UTF-8 encoding of a valid code point is `< 256`. -/
theorem utf8EncodeChar_lt (c : Nat) (hc : c < 1114112) :
    ∀ b ∈ utf8EncodeChar c, b < 256 := by
  unfold utf8EncodeChar
  split_ifs with h1 h2 h3 <;> intro b hb <;> simp at hb <;>
    rcases hb with rfl | rfl | rfl | rfl <;> omega

/-- C5 amended: for every action string (of valid Unicode code points) the
byte-reinterpretation quirk is the identity on the UTF-8 bytes, so the
quirk encoding equals naive base64 of the string's UTF-8 bytes — for
non-ASCII content as much as for ASCII. -/
theorem js_like_base64_eq_naive (text : List Nat) (h : ∀ c ∈ text, c < 1114112) :
    js_like_base64 text = some (naiveUtf8Base64 text) := by
  have hb : ∀ b ∈ utf8Encode text, b < 256 := by
    intro b hbin
    unfold utf8Encode at hbin
    obtain ⟨l, hl, hbl⟩ := List.mem_flatten.mp hbin
    obtain ⟨c, hc, rfl⟩ := List.mem_map.mp hl
    exact utf8EncodeChar_lt c (h c hc) b hbl
  have hall : (utf8Encode text).all (fun c => decide (c < 256)) = true := by
    rw [List.all_eq_true]
    intro x hx
    simpa using hb x hx
  unfold js_like_base64 naiveUtf8Base64 latin1Decode latin1Encode
  rw [if_pos hall]
  rfl

/-- Witness for C5 (amended): the equality evaluated at the non-ASCII
input `[233]`. -/
theorem js_like_base64_eq_naive_witness :
    js_like_base64 [233] = some (naiveUtf8Base64 [233]) :=
  js_like_base64_eq_naive [233] (by decide)

end ZAgent

namespace ZAgent

/-! ## Helper lemmas: decimal rendering and digests -/

/-- Appending one digit multiplies the value by ten and adds the digit. -/
theorem decVal_append_digit (xs : List Nat) (d : Nat) :
    decVal (xs ++ [d]) = decVal xs * 10 + (d - 48) := by
  unfold decVal
  rw [List.foldl_append]
  rfl

/-- With enough fuel, `natToDecAux` renders a decimal numeral whose value
is the number itself. -/
theorem natToDecAux_spec : ∀ (fuel n : Nat), n < fuel →
    decVal (natToDecAux fuel n) = n := by
  intro fuel
  induction fuel with
  | zero => omega
  | succ fuel ih =>
    intro n hn
    unfold natToDecAux
    by_cases h10 : n < 10
    · rw [if_pos h10]
      unfold decVal
      simp
    · rw [if_neg h10]
      have hdiv : n / 10 < fuel := by
        have := Nat.div_lt_self (by omega : 0 < n) (by omega : 1 < 10)
        omega
      rw [decVal_append_digit, ih (n / 10) hdiv]
      omega

/-- `decVal` inverts `natToDec`. -/
theorem decVal_natToDec (n : Nat) : decVal (natToDec n) = n :=
  natToDecAux_spec (n + 1) n (by omega)

/-- Decimal rendering is injective. -/
theorem natToDec_inj {m n : Nat} (h : natToDec m = natToDec n) : m = n := by
  have := congrArg decVal h
  rwa [decVal_natToDec, decVal_natToDec] at this

/-- The final hashed payload determines the timestamp: same payload summary
and action but different timestamps give different payload strings. -/
theorem signaturePayload_inj_ts (sp a : List Nat) (ts1 ts2 : Nat)
    (h : signaturePayload sp a ts1 = signaturePayload sp a ts2) : ts1 = ts2 := by
  unfold signaturePayload at h
  exact natToDec_inj (List.append_cancel_left h)

/-- One compression step returns eight words. -/
theorem sha256Compress_length (H block : List Nat) :
    (sha256Compress H block).length = 8 := rfl

/-- The running hash stays eight words long. -/
theorem foldl_sha256Compress_length (blocks : List (List Nat)) (H : List Nat)
    (hH : H.length = 8) : (blocks.foldl sha256Compress H).length = 8 := by
  induction blocks generalizing H with
  | nil => exact hH
  | cons b bs ih => exact ih _ (sha256Compress_length _ _)

/-- Flattening four bytes per word. -/
theorem flatten_map_wordToBytes_length (l : List Nat) :
    ((l.map wordToBytes).flatten).length = 4 * l.length := by
  induction l with
  | nil => rfl
  | cons x l ih =>
    simp only [List.map_cons, List.flatten_cons, List.length_append, ih,
      List.length_cons, wordToBytes]
    simp
    omega

/-- A SHA-256 digest is 32 bytes long. -/
theorem sha256Bytes_length (msg : List Nat) : (sha256Bytes msg).length = 32 := by
  unfold sha256Bytes
  rw [flatten_map_wordToBytes_length,
    foldl_sha256Compress_length _ sha256H0 rfl]

/-- Every byte of a SHA-256 digest is `< 256`. -/
theorem sha256Bytes_lt (msg : List Nat) : ∀ b ∈ sha256Bytes msg, b < 256 := by
  unfold sha256Bytes
  intro b hb
  obtain ⟨l, hl, hbl⟩ := List.mem_flatten.mp hb
  obtain ⟨w, hw, rfl⟩ := List.mem_map.mp hl
  unfold wordToBytes at hbl
  simp at hbl
  rcases hbl with rfl | rfl | rfl | rfl <;> exact Nat.mod_lt _ (by norm_num)

/-- An HMAC-SHA256 digest is 32 bytes long. -/
theorem hmacSha256_length (k m : List Nat) : (hmacSha256 k m).length = 32 := by
  unfold hmacSha256
  exact sha256Bytes_length _

/-- Every byte of an HMAC-SHA256 digest is `< 256`. -/
theorem hmacSha256_lt (k m : List Nat) : ∀ b ∈ hmacSha256 k m, b < 256 := by
  unfold hmacSha256
  exact sha256Bytes_lt _

/-- Reading bounded bytes big-endian stays below `(a+1) · 256^len`. -/
theorem bytesToNat_foldl_lt : ∀ (bs : List Nat) (a : Nat), (∀ b ∈ bs, b < 256) →
    bs.foldl (fun acc b => acc * 256 + b) a < (a + 1) * 256 ^ bs.length := by
  intro bs
  induction bs with
  | nil => intro a _; simp
  | cons b bs ih =>
    intro a hb
    have hb0 : b < 256 := hb b (List.mem_cons_self _ _)
    have hrec := ih (a * 256 + b) (fun x hx => hb x (List.mem_cons_of_mem _ hx))
    refine lt_of_lt_of_le hrec ?_
    have h2 : a * 256 + b + 1 ≤ (a + 1) * 256 := by omega
    calc (a * 256 + b + 1) * 256 ^ bs.length
        ≤ ((a + 1) * 256) * 256 ^ bs.length := Nat.mul_le_mul_right _ h2
      _ = (a + 1) * 256 ^ (b :: bs).length := by rw [List.length_cons, pow_succ]; ring

/-- The numeric value of a digest is below `256 ^ length`. -/
theorem bytesToNat_lt (bs : List Nat) (h : ∀ b ∈ bs, b < 256) :
    bytesToNat bs < 256 ^ bs.length := by
  have := bytesToNat_foldl_lt bs 0 h
  unfold bytesToNat
  simpa using this

/-- The numeric value of an HMAC-SHA256 digest is below `256 ^ 32`. -/
theorem bytesToNat_hmac_lt (k m : List Nat) :
    bytesToNat (hmacSha256 k m) < 256 ^ 32 := by
  have := bytesToNat_lt _ (hmacSha256_lt k m)
  rwa [hmacSha256_length] at this

/-- Big-endian byte reading is injective on equal-length bounded lists. -/
theorem bytesToNat_foldl_inj : ∀ (bs1 bs2 : List Nat) (a1 a2 : Nat),
    bs1.length = bs2.length → (∀ b ∈ bs1, b < 256) → (∀ b ∈ bs2, b < 256) →
    bs1.foldl (fun acc b => acc * 256 + b) a1 = bs2.foldl (fun acc b => acc * 256 + b) a2 →
    a1 = a2 ∧ bs1 = bs2 := by
  intro bs1
  induction bs1 with
  | nil =>
    intro bs2 a1 a2 hlen _ _ h
    cases bs2 with
    | nil => exact ⟨h, rfl⟩
    | cons _ _ => simp at hlen
  | cons b1 bs1 ih =>
    intro bs2 a1 a2 hlen hb1 hb2 h
    cases bs2 with
    | nil => simp at hlen
    | cons b2 bs2 =>
      simp only [List.foldl_cons] at h
      have hlen' : bs1.length = bs2.length := by simpa using hlen
      obtain ⟨ha, hbs⟩ := ih bs2 (a1 * 256 + b1) (a2 * 256 + b2) hlen'
        (fun x hx => hb1 x (List.mem_cons_of_mem _ hx))
        (fun x hx => hb2 x (List.mem_cons_of_mem _ hx)) h
      have h1 : b1 < 256 := hb1 b1 (List.mem_cons_self _ _)
      have h2 : b2 < 256 := hb2 b2 (List.mem_cons_self _ _)
      have ha' : a1 = a2 := by omega
      have hb' : b1 = b2 := by omega
      exact ⟨ha', by rw [hb', hbs]⟩

/-- `bytesToNat` is injective on equal-length byte lists. -/
theorem bytesToNat_inj (bs1 bs2 : List Nat) (hlen : bs1.length = bs2.length)
    (h1 : ∀ b ∈ bs1, b < 256) (h2 : ∀ b ∈ bs2, b < 256)
    (h : bytesToNat bs1 = bytesToNat bs2) : bs1 = bs2 :=
  (bytesToNat_foldl_inj bs1 bs2 0 0 hlen h1 h2 h).2

/-- C7 counterexample: the signature has only `256^32` possible digests but
there are infinitely many 5-minute windows, so two timestamps in *different*
windows with *identical* signatures exist — "window indices differ ⇒
signatures differ" is false as a universal statement. -/
theorem signature_window_collision :
    ∃ ts1 ts2 : Nat, ts1 / (5 * 60 * 1000) ≠ ts2 / (5 * 60 * 1000) ∧
      generate_signature [] [] ts1 = generate_signature [] [] ts2 := by
  obtain ⟨k1, k2, hk, hf⟩ := Finite.exists_ne_map_eq_of_infinite
    (fun k : Nat => (⟨bytesToNat (hmacSha256 (utf8Encode (windowKeyHex (300000 * k)))
        (utf8Encode (signaturePayload [] [] (300000 * k)))),
      bytesToNat_hmac_lt _ _⟩ : Fin (256 ^ 32)))
  have hval := congrArg Fin.val hf
  simp only at hval
  have hdig := bytesToNat_inj _ _
    ((hmacSha256_length _ _).trans (hmacSha256_length _ _).symm)
    (hmacSha256_lt _ _) (hmacSha256_lt _ _) hval
  refine ⟨300000 * k1, 300000 * k2, ?_, ?_⟩
  · have e1 : 300000 * k1 / (5 * 60 * 1000) = k1 := Nat.mul_div_cancel_left k1 (by norm_num)
    have e2 : 300000 * k2 / (5 * 60 * 1000) = k2 := Nat.mul_div_cancel_left k2 (by norm_num)
    rw [e1, e2]
    exact hk
  · unfold generate_signature
    exact congrArg hexOfBytes hdig

/-- C7 amended: the signature is a pure function of the triple (identical
inputs give the identical signature), and two timestamps in different
5-minute windows always feed the final keyed hash *different* inputs: the
timestamps differ, the window-key derivation strings differ, and the hashed
payload strings differ.  (Equal signatures across windows exist only as
digest collisions — see the counterexample.) -/
theorem signature_window_sensitivity (sp a : List Nat) (ts1 ts2 : Nat)
    (hw : ts1 / (5 * 60 * 1000) ≠ ts2 / (5 * 60 * 1000)) :
    (∀ sp' a' ts', sp' = sp → a' = a → ts' = ts1 →
       generate_signature sp' a' ts' = generate_signature sp a ts1) ∧
    ts1 ≠ ts2 ∧
    natToDec (ts1 / (5 * 60 * 1000)) ≠ natToDec (ts2 / (5 * 60 * 1000)) ∧
    signaturePayload sp a ts1 ≠ signaturePayload sp a ts2 := by
  refine ⟨fun sp' a' ts' h1 h2 h3 => by rw [h1, h2, h3], ?_, ?_, ?_⟩
  · intro h
    exact hw (by rw [h])
  · intro h
    exact hw (natToDec_inj h)
  · intro h
    exact hw (by rw [signaturePayload_inj_ts sp a ts1 ts2 h])

/-- Witness for C7 (amended): the window boundary at 300000 ms separates the
hashed payloads. -/
theorem signature_window_sensitivity_witness :
    signaturePayload [] [] 0 ≠ signaturePayload [] [] 300000 :=
  (signature_window_sensitivity [] [] 0 300000 (by decide)).2.2.2

end ZAgent
